import Mathlib

/-!
Shallow embedding of the go-github issues module (`github/issues.go`:
issue and milestone operations of `IssuesService`) together with the
JSON-body and query-string encodings its requests carry.

The HTTP transport (`NewRequest` / `Do`), the shared pagination option
fragments and the query encoder live outside this module; they are
modelled from the specification and marked as such on each definition.
-/

namespace github

/-- JSON values, as produced and consumed by the module's wire format. -/
inductive Jv where
  | null
  | bool (b : Bool)
  | num (n : Int)
  | str (s : String)
  | arr (elems : List Jv)
  | obj (fields : List (String × Jv))

/-- Whether a JSON value is the literal `null`. -/
def Jv.isNull : Jv → Bool
  | Jv.null => true
  | _ => false

/-- Modelled from the spec: `User` is declared outside this module (the spec
gives it no field list), so the model keeps the raw decoded JSON object. -/
structure User where
  raw : Jv := Jv.null

/-- Modelled from the spec: `Label` is declared outside this module; the model
keeps the raw decoded JSON object. -/
structure Label where
  raw : Jv := Jv.null

/-- Modelled from the spec: `Reactions` (the reaction summary) is declared
outside this module; the model keeps the raw decoded JSON object. -/
structure Reactions where
  raw : Jv := Jv.null

/-- Modelled from the spec: `Repository` is declared outside this module; the
model keeps the raw decoded JSON object. -/
structure Repository where
  raw : Jv := Jv.null

/-- Modelled from the spec: `TextMatch` is declared outside this module; the
model keeps the raw decoded JSON object. -/
structure TextMatch where
  raw : Jv := Jv.null

/-- Modelled from the spec: `Timestamp` is declared outside this module; it
decodes from a JSON string or number, and the model keeps that raw value. -/
structure Timestamp where
  raw : Jv := Jv.null

/-- Milestone represents a GitHub repository milestone (source struct
`Milestone`; every Go pointer field becomes an `Option`, nil being `none`). -/
structure Milestone where
  URL : Option String := none
  HTMLURL : Option String := none
  LabelsURL : Option String := none
  ID : Option Int := none
  Number : Option Int := none
  State : Option String := none
  Title : Option String := none
  Description : Option String := none
  Creator : Option User := none
  OpenIssues : Option Int := none
  ClosedIssues : Option Int := none
  CreatedAt : Option Timestamp := none
  UpdatedAt : Option Timestamp := none
  ClosedAt : Option Timestamp := none
  DueOn : Option Timestamp := none
  NodeID : Option String := none

/-- PullRequestLinks object, added to an Issue that is actually a pull
request (source struct `PullRequestLinks`). -/
structure PullRequestLinks where
  URL : Option String := none
  HTMLURL : Option String := none
  DiffURL : Option String := none
  PatchURL : Option String := none
  MergedAt : Option Timestamp := none

/-- IssueType represents the type of issue (source struct `IssueType`). -/
structure IssueType where
  ID : Option Int := none
  NodeID : Option String := none
  Name : Option String := none
  Description : Option String := none
  Color : Option String := none
  CreatedAt : Option Timestamp := none
  UpdatedAt : Option Timestamp := none

/-- Issue represents a GitHub issue on a repository (source struct `Issue`).
Go pointer fields become `Option`; Go slices of pointers become lists of
`Option` (a JSON `null` element decodes to `none`). The Go fields `Sort` and
`Type` are keywords in Lean and appear primed. -/
structure Issue where
  ID : Option Int := none
  Number : Option Int := none
  State : Option String := none
  StateReason : Option String := none
  Locked : Option Bool := none
  Title : Option String := none
  Body : Option String := none
  AuthorAssociation : Option String := none
  User : Option github.User := none
  Labels : List (Option Label) := []
  Assignee : Option github.User := none
  Comments : Option Int := none
  ClosedAt : Option Timestamp := none
  CreatedAt : Option Timestamp := none
  UpdatedAt : Option Timestamp := none
  ClosedBy : Option github.User := none
  URL : Option String := none
  HTMLURL : Option String := none
  CommentsURL : Option String := none
  EventsURL : Option String := none
  LabelsURL : Option String := none
  RepositoryURL : Option String := none
  Milestone : Option github.Milestone := none
  PullRequestLinks : Option github.PullRequestLinks := none
  Repository : Option github.Repository := none
  Reactions : Option github.Reactions := none
  Assignees : List (Option github.User) := []
  NodeID : Option String := none
  Draft : Option Bool := none
  Type' : Option IssueType := none
  TextMatches : List (Option TextMatch) := []
  ActiveLockReason : Option String := none

/-- IsPullRequest reports whether the issue is also a pull request: the
source checks whether `PullRequestLinks` is non-nil. -/
def Issue.IsPullRequest (i : Issue) : Bool :=
  i.PullRequestLinks.isSome

/-- IssueRequest represents a request to create/edit an issue (source struct
`IssueRequest`; `*[]string` fields become `Option (List String)`). -/
structure IssueRequest where
  Title : Option String := none
  Body : Option String := none
  Labels : Option (List String) := none
  Assignee : Option String := none
  State : Option String := none
  StateReason : Option String := none
  Milestone : Option Int := none
  Assignees : Option (List String) := none
  Type' : Option String := none

/-- LockIssueOptions specifies the optional parameters to `Lock` (source
struct `LockIssueOptions`). -/
structure LockIssueOptions where
  LockReason : String := ""

/-- Modelled from the spec: a Go `time.Time` value (standard library), kept
as its RFC3339 rendering; `none` stands for the zero time, which the
`omitempty` query tag drops. -/
structure GoTime where
  rfc3339 : String := ""

/-- Modelled from the spec: the offset-pagination fragment (`ListOptions`,
declared outside this module) carrying the integer `page` and `per_page`
query parameters. -/
structure ListOptions where
  Page : Int := 0
  PerPage : Int := 0

/-- Modelled from the spec: the cursor-pagination fragment
(`ListCursorOptions`, declared outside this module): per the source comment
it accepts the `page` parameter as a string, and it carries the pagination
cursor as the `cursor` parameter. -/
structure ListCursorOptions where
  Page : String := ""
  Cursor : String := ""

/-- IssueListOptions specifies the optional parameters to `List` and
`ListByOrg` (source struct `IssueListOptions`). The Go embedded fragments
`ListCursorOptions` and `ListOptions` become the fields `cursorOpts` and
`listOpts`, in source order; the Go field `Sort` appears primed. -/
structure IssueListOptions where
  Filter : String := ""
  State : String := ""
  Labels : List String := []
  Sort' : String := ""
  Direction : String := ""
  Since : Option GoTime := none
  cursorOpts : ListCursorOptions := {}
  listOpts : ListOptions := {}

/-- IssueListByRepoOptions specifies the optional parameters to `ListByRepo`
(source struct `IssueListByRepoOptions`); embedded fragments and the `Sort`
field are named as in `IssueListOptions`. -/
structure IssueListByRepoOptions where
  Milestone : String := ""
  State : String := ""
  Assignee : String := ""
  Creator : String := ""
  Mentioned : String := ""
  Labels : List String := []
  Sort' : String := ""
  Direction : String := ""
  Since : Option GoTime := none
  cursorOpts : ListCursorOptions := {}
  listOpts : ListOptions := {}

/-- MilestoneListOptions specifies the optional parameters to
`ListMilestones` (source struct `MilestoneListOptions`): it embeds only the
offset-pagination fragment `ListOptions` (field `listOpts`). -/
structure MilestoneListOptions where
  State : String := ""
  Sort' : String := ""
  Direction : String := ""
  listOpts : ListOptions := {}

/-!
Query-string encoding. The source tags each option field with `url:"name"`
plus `omitempty` (drop the zero value) and, on label lists, `comma` (join
with commas). The encoder itself (`addOptions` and the go-querystring
library) is outside this module; it is modelled from the spec: each
non-empty field maps to a single query parameter, list-typed fields
serialize as comma-joined values, and embedded fragments encode in place.
-/

/-- One query parameter from a string field tagged `omitempty`. -/
def optStr (key s : String) : List (String × String) :=
  if s = "" then [] else [(key, s)]

/-- One query parameter from an integer field tagged `omitempty`. -/
def optInt (key : String) (n : Int) : List (String × String) :=
  if n = 0 then [] else [(key, toString n)]

/-- One query parameter from a string-list field tagged `comma,omitempty`. -/
def optCommaList (key : String) (xs : List String) : List (String × String) :=
  if xs = [] then [] else [(key, String.intercalate "," xs)]

/-- One query parameter from a `time.Time` field tagged `omitempty`. -/
def optTime (key : String) (t : Option GoTime) : List (String × String) :=
  match t with
  | none => []
  | some g => [(key, g.rfc3339)]

/-- Query parameters of the offset-pagination fragment. -/
def encodeListOptions (o : ListOptions) : List (String × String) :=
  optInt "page" o.Page ++ optInt "per_page" o.PerPage

/-- Query parameters of the cursor-pagination fragment. -/
def encodeListCursorOptions (o : ListCursorOptions) : List (String × String) :=
  optStr "page" o.Page ++ optStr "cursor" o.Cursor

/-- Query parameters of an `IssueListOptions`, in source field order. -/
def encodeIssueListOptions (o : IssueListOptions) : List (String × String) :=
  optStr "filter" o.Filter ++ optStr "state" o.State ++
  optCommaList "labels" o.Labels ++ optStr "sort" o.Sort' ++
  optStr "direction" o.Direction ++ optTime "since" o.Since ++
  encodeListCursorOptions o.cursorOpts ++ encodeListOptions o.listOpts

/-- Query parameters of an `IssueListByRepoOptions`, in source field order. -/
def encodeIssueListByRepoOptions (o : IssueListByRepoOptions) : List (String × String) :=
  optStr "milestone" o.Milestone ++ optStr "state" o.State ++
  optStr "assignee" o.Assignee ++ optStr "creator" o.Creator ++
  optStr "mentioned" o.Mentioned ++ optCommaList "labels" o.Labels ++
  optStr "sort" o.Sort' ++ optStr "direction" o.Direction ++
  optTime "since" o.Since ++
  encodeListCursorOptions o.cursorOpts ++ encodeListOptions o.listOpts

/-- Query parameters of a `MilestoneListOptions`, in source field order. -/
def encodeMilestoneListOptions (o : MilestoneListOptions) : List (String × String) :=
  optStr "state" o.State ++ optStr "sort" o.Sort' ++
  optStr "direction" o.Direction ++ encodeListOptions o.listOpts

/-- Render query parameters as the query part of a URL. -/
def formatQuery (ps : List (String × String)) : String :=
  String.intercalate "&" (ps.map fun p => p.1 ++ "=" ++ p.2)

/-- Append encoded query parameters to a URL, when there are any. -/
def appendQuery (u : String) (ps : List (String × String)) : String :=
  if ps = [] then u else u ++ "?" ++ formatQuery ps

/-- Modelled from the spec: `addOptions` (declared outside this module)
specialised to `IssueListOptions`; a nil options pointer leaves the URL
unchanged. -/
def addOptionsIssueList (u : String) (opts : Option IssueListOptions) : String :=
  match opts with
  | none => u
  | some o => appendQuery u (encodeIssueListOptions o)

/-- Modelled from the spec: `addOptions` specialised to
`IssueListByRepoOptions`. -/
def addOptionsIssueListByRepo (u : String) (opts : Option IssueListByRepoOptions) : String :=
  match opts with
  | none => u
  | some o => appendQuery u (encodeIssueListByRepoOptions o)

/-- Modelled from the spec: `addOptions` specialised to
`MilestoneListOptions`. -/
def addOptionsMilestoneList (u : String) (opts : Option MilestoneListOptions) : String :=
  match opts with
  | none => u
  | some o => appendQuery u (encodeMilestoneListOptions o)

/-!
JSON serialization of request bodies, following the `json:"...,omitempty"`
tags of the source structs: a nil pointer field is omitted, a present field
becomes one key in source field order.
-/

/-- One JSON object entry from a pointer field tagged `omitempty`. -/
def jsonOptField (key : String) (v : Option Jv) : List (String × Jv) :=
  match v with
  | none => []
  | some j => [(key, j)]

/-- JSON value of a `Timestamp` (its raw wire value). -/
def serializeTimestamp (t : Timestamp) : Jv := t.raw

/-- JSON value of a `User` (its raw wire value). -/
def serializeUser (u : User) : Jv := u.raw

/-- JSON serialization of a `Milestone` per its source struct tags. -/
def serializeMilestone (m : Milestone) : Jv :=
  Jv.obj (
    jsonOptField "url" (m.URL.map Jv.str) ++
    jsonOptField "html_url" (m.HTMLURL.map Jv.str) ++
    jsonOptField "labels_url" (m.LabelsURL.map Jv.str) ++
    jsonOptField "id" (m.ID.map Jv.num) ++
    jsonOptField "number" (m.Number.map Jv.num) ++
    jsonOptField "state" (m.State.map Jv.str) ++
    jsonOptField "title" (m.Title.map Jv.str) ++
    jsonOptField "description" (m.Description.map Jv.str) ++
    jsonOptField "creator" (m.Creator.map serializeUser) ++
    jsonOptField "open_issues" (m.OpenIssues.map Jv.num) ++
    jsonOptField "closed_issues" (m.ClosedIssues.map Jv.num) ++
    jsonOptField "created_at" (m.CreatedAt.map serializeTimestamp) ++
    jsonOptField "updated_at" (m.UpdatedAt.map serializeTimestamp) ++
    jsonOptField "closed_at" (m.ClosedAt.map serializeTimestamp) ++
    jsonOptField "due_on" (m.DueOn.map serializeTimestamp) ++
    jsonOptField "node_id" (m.NodeID.map Jv.str))

/-- JSON serialization of an `IssueRequest` per its source struct tags. -/
def serializeIssueRequest (r : IssueRequest) : Jv :=
  Jv.obj (
    jsonOptField "title" (r.Title.map Jv.str) ++
    jsonOptField "body" (r.Body.map Jv.str) ++
    jsonOptField "labels" (r.Labels.map fun xs => Jv.arr (xs.map Jv.str)) ++
    jsonOptField "assignee" (r.Assignee.map Jv.str) ++
    jsonOptField "state" (r.State.map Jv.str) ++
    jsonOptField "state_reason" (r.StateReason.map Jv.str) ++
    jsonOptField "milestone" (r.Milestone.map Jv.num) ++
    jsonOptField "assignees" (r.Assignees.map fun xs => Jv.arr (xs.map Jv.str)) ++
    jsonOptField "type" (r.Type'.map Jv.str))

/-- JSON serialization of `LockIssueOptions`: the `lock_reason` key is
present exactly when the reason is non-empty (`omitempty` tag). -/
def serializeLockIssueOptions (o : LockIssueOptions) : Jv :=
  Jv.obj (if o.LockReason = "" then [] else [("lock_reason", Jv.str o.LockReason)])

/-- JSON serialization of the anonymous body struct in `RemoveMilestone`:
its single `milestone` field carries no `omitempty` tag, so the key is
always present and a nil milestone serializes as an explicit `null`. -/
def serializeMilestonePatch (m : Option Milestone) : Jv :=
  Jv.obj [("milestone", match m with
    | none => Jv.null
    | some x => serializeMilestone x)]

/-!
The transport collaborator. `NewRequest` and `Do` belong to the shared
client outside this module; they are modelled from the spec: `NewRequest`
builds a request from method, path and optional JSON body (or fails),
`Do` executes it and yields response metadata, an optional error, and the
value decoded into the destination. A `Client` value fixes one behaviour
of that collaborator; operations are proved for every such behaviour. Each
operation's result also records the requests handed to `Do`, so that "no
network call is made" is an assertion about an empty list.
-/

/-- An HTTP request as this module observes it: method, URL (path plus
encoded query), optional JSON body, and headers set on it. -/
structure Request where
  method : String
  url : String
  body : Option Jv := none
  headers : List (String × String) := []

/-- Transport-level response metadata (contents irrelevant here). -/
structure Response where
  statusCode : Nat := 0

/-- An opaque Go error value. -/
structure GoErr where
  msg : String := ""

/-- Modelled from the spec: one behaviour of the shared client collaborator.
`newRequestErr` says when request construction fails; `doResp`/`doErr` are
the response and error `Do` returns for a request, and the `do...` fields
are the values `Do` decodes into the destination of each result type. -/
structure Client where
  newRequestErr : String → String → Option Jv → Option GoErr
  doResp : Request → Option Response
  doErr : Request → Option GoErr
  doIssues : Request → List Issue
  doIssue : Request → Issue
  doMilestones : Request → List Milestone
  doMilestone : Request → Milestone

/-- Modelled from the spec: `NewRequest(method, path, body)` yields a
request or an error; on success the request carries exactly the given
method, URL and JSON body, with no headers yet. -/
def Client.newRequest (c : Client) (method url : String) (body : Option Jv) :
    Except GoErr Request :=
  match c.newRequestErr method url body with
  | some e => Except.error e
  | none => Except.ok { method := method, url := url, body := body }

/-- Set a header on a request, replacing any previous value for the key
(the model of `req.Header.Set`). -/
def Request.setHeader (r : Request) (key value : String) : Request :=
  { r with headers := (key, value) :: r.headers.filter fun p => p.1 ≠ key }

/-- Modelled from the spec: the reactions-preview Accept media type
(`mediaTypeReactionsPreview`, a constant declared outside this module; its
exact value is irrelevant to the claims). -/
def mediaTypeReactionsPreview : String :=
  "application/vnd.github.squirrel-girl-preview"

/-- What a value-returning operation hands back: the decoded value, the
response, the error (Go's triple), plus the requests passed to `Do`. -/
structure OpResult (α : Type) where
  value : Option α := none
  resp : Option Response := none
  err : Option GoErr := none
  sent : List Request := []

/-- What a `(*Response, error)` operation hands back, plus the requests
passed to `Do`. -/
structure RespResult where
  resp : Option Response := none
  err : Option GoErr := none
  sent : List Request := []

/-!
The operations of `IssuesService`, translated one-to-one from the source.
The service value reduces to its client collaborator, passed explicitly.
Inside a declaration named `IssuesService.x` a bare `List` resolves to the
sibling operation `IssuesService.List`, so the two list-result types get
abbreviations.
-/

/-- Result type of the issue-list operations. -/
abbrev IssueListResult : Type := OpResult (List Issue)

/-- Result type of the milestone-list operation. -/
abbrev MilestoneListResult : Type := OpResult (List Milestone)

/-- Shared tail of `List` and `ListByOrg` (source `listIssues`): add the
options to the URL, build a GET request, set the reactions-preview Accept
header, execute, and surface the decoded issue list. -/
def IssuesService.listIssues (c : Client) (u : String) (opts : Option IssueListOptions) :
    IssueListResult :=
  let u := addOptionsIssueList u opts
  match c.newRequest "GET" u none with
  | Except.error e => { err := some e }
  | Except.ok req =>
    let req := req.setHeader "Accept" mediaTypeReactionsPreview
    match c.doErr req with
    | some e => { resp := c.doResp req, err := some e, sent := [req] }
    | none => { value := some (c.doIssues req), resp := c.doResp req, sent := [req] }

/-- List the issues for the authenticated user: across all visible
repositories (`issues`) when `all` is true, otherwise owned and member
repositories (`user/issues`). -/
def IssuesService.List (c : Client) (all : Bool) (opts : Option IssueListOptions) :
    IssueListResult :=
  let u := if all then "issues" else "user/issues"
  IssuesService.listIssues c u opts

/-- ListByOrg fetches the issues in the specified organization. -/
def IssuesService.ListByOrg (c : Client) (org : String) (opts : Option IssueListOptions) :
    IssueListResult :=
  let u := "orgs/" ++ org ++ "/issues"
  IssuesService.listIssues c u opts

/-- ListByRepo lists the issues for the specified repository. -/
def IssuesService.ListByRepo (c : Client) (owner repo : String)
    (opts : Option IssueListByRepoOptions) : IssueListResult :=
  let u := "repos/" ++ owner ++ "/" ++ repo ++ "/issues"
  let u := addOptionsIssueListByRepo u opts
  match c.newRequest "GET" u none with
  | Except.error e => { err := some e }
  | Except.ok req =>
    let req := req.setHeader "Accept" mediaTypeReactionsPreview
    match c.doErr req with
    | some e => { resp := c.doResp req, err := some e, sent := [req] }
    | none => { value := some (c.doIssues req), resp := c.doResp req, sent := [req] }

/-- Get a single issue. -/
def IssuesService.Get (c : Client) (owner repo : String) (number : Int) : OpResult Issue :=
  let u := "repos/" ++ owner ++ "/" ++ repo ++ "/issues/" ++ toString number
  match c.newRequest "GET" u none with
  | Except.error e => { err := some e }
  | Except.ok req =>
    let req := req.setHeader "Accept" mediaTypeReactionsPreview
    match c.doErr req with
    | some e => { resp := c.doResp req, err := some e, sent := [req] }
    | none => { value := some (c.doIssue req), resp := c.doResp req, sent := [req] }

/-- Create a new issue on the specified repository (POST with the
serialized issue request as JSON body). -/
def IssuesService.Create (c : Client) (owner repo : String) (issue : Option IssueRequest) :
    OpResult Issue :=
  let u := "repos/" ++ owner ++ "/" ++ repo ++ "/issues"
  match c.newRequest "POST" u (issue.map serializeIssueRequest) with
  | Except.error e => { err := some e }
  | Except.ok req =>
    match c.doErr req with
    | some e => { resp := c.doResp req, err := some e, sent := [req] }
    | none => { value := some (c.doIssue req), resp := c.doResp req, sent := [req] }

/-- Edit (update) an issue (PATCH with the serialized issue request). -/
def IssuesService.Edit (c : Client) (owner repo : String) (number : Int)
    (issue : Option IssueRequest) : OpResult Issue :=
  let u := "repos/" ++ owner ++ "/" ++ repo ++ "/issues/" ++ toString number
  match c.newRequest "PATCH" u (issue.map serializeIssueRequest) with
  | Except.error e => { err := some e }
  | Except.ok req =>
    match c.doErr req with
    | some e => { resp := c.doResp req, err := some e, sent := [req] }
    | none => { value := some (c.doIssue req), resp := c.doResp req, sent := [req] }

/-- RemoveMilestone removes a milestone from an issue: a PATCH whose body is
the anonymous struct holding a nil milestone, serialized with an explicit
`null`. -/
def IssuesService.RemoveMilestone (c : Client) (owner repo : String) (issueNumber : Int) :
    OpResult Issue :=
  let u := "repos/" ++ owner ++ "/" ++ repo ++ "/issues/" ++ toString issueNumber
  match c.newRequest "PATCH" u (some (serializeMilestonePatch none)) with
  | Except.error e => { err := some e }
  | Except.ok req =>
    match c.doErr req with
    | some e => { resp := c.doResp req, err := some e, sent := [req] }
    | none => { value := some (c.doIssue req), resp := c.doResp req, sent := [req] }

/-- Lock an issue's conversation (PUT to the lock sub-resource; the options,
when given, are the JSON body). -/
def IssuesService.Lock (c : Client) (owner repo : String) (number : Int)
    (opts : Option LockIssueOptions) : RespResult :=
  let u := "repos/" ++ owner ++ "/" ++ repo ++ "/issues/" ++ toString number ++ "/lock"
  match c.newRequest "PUT" u (opts.map serializeLockIssueOptions) with
  | Except.error e => { err := some e }
  | Except.ok req => { resp := c.doResp req, err := c.doErr req, sent := [req] }

/-- Unlock an issue's conversation (DELETE on the lock sub-resource). -/
def IssuesService.Unlock (c : Client) (owner repo : String) (number : Int) : RespResult :=
  let u := "repos/" ++ owner ++ "/" ++ repo ++ "/issues/" ++ toString number ++ "/lock"
  match c.newRequest "DELETE" u none with
  | Except.error e => { err := some e }
  | Except.ok req => { resp := c.doResp req, err := c.doErr req, sent := [req] }

/-- ListMilestones lists all milestones for a repository (no preview
header). -/
def IssuesService.ListMilestones (c : Client) (owner repo : String)
    (opts : Option MilestoneListOptions) : MilestoneListResult :=
  let u := "repos/" ++ owner ++ "/" ++ repo ++ "/milestones"
  let u := addOptionsMilestoneList u opts
  match c.newRequest "GET" u none with
  | Except.error e => { err := some e }
  | Except.ok req =>
    match c.doErr req with
    | some e => { resp := c.doResp req, err := some e, sent := [req] }
    | none => { value := some (c.doMilestones req), resp := c.doResp req, sent := [req] }

/-- GetMilestone gets a single milestone. -/
def IssuesService.GetMilestone (c : Client) (owner repo : String) (number : Int) :
    OpResult Milestone :=
  let u := "repos/" ++ owner ++ "/" ++ repo ++ "/milestones/" ++ toString number
  match c.newRequest "GET" u none with
  | Except.error e => { err := some e }
  | Except.ok req =>
    match c.doErr req with
    | some e => { resp := c.doResp req, err := some e, sent := [req] }
    | none => { value := some (c.doMilestone req), resp := c.doResp req, sent := [req] }

/-- CreateMilestone creates a new milestone on the specified repository. -/
def IssuesService.CreateMilestone (c : Client) (owner repo : String)
    (milestone : Option Milestone) : OpResult Milestone :=
  let u := "repos/" ++ owner ++ "/" ++ repo ++ "/milestones"
  match c.newRequest "POST" u (milestone.map serializeMilestone) with
  | Except.error e => { err := some e }
  | Except.ok req =>
    match c.doErr req with
    | some e => { resp := c.doResp req, err := some e, sent := [req] }
    | none => { value := some (c.doMilestone req), resp := c.doResp req, sent := [req] }

/-- EditMilestone edits a milestone. -/
def IssuesService.EditMilestone (c : Client) (owner repo : String) (number : Int)
    (milestone : Option Milestone) : OpResult Milestone :=
  let u := "repos/" ++ owner ++ "/" ++ repo ++ "/milestones/" ++ toString number
  match c.newRequest "PATCH" u (milestone.map serializeMilestone) with
  | Except.error e => { err := some e }
  | Except.ok req =>
    match c.doErr req with
    | some e => { resp := c.doResp req, err := some e, sent := [req] }
    | none => { value := some (c.doMilestone req), resp := c.doResp req, sent := [req] }

/-- DeleteMilestone deletes a milestone. -/
def IssuesService.DeleteMilestone (c : Client) (owner repo : String) (number : Int) :
    RespResult :=
  let u := "repos/" ++ owner ++ "/" ++ repo ++ "/milestones/" ++ toString number
  match c.newRequest "DELETE" u none with
  | Except.error e => { err := some e }
  | Except.ok req => { resp := c.doResp req, err := c.doErr req, sent := [req] }

/-!
JSON decoding (the model of `json.Unmarshal` applied to the source structs):
an object's entries are processed in order, each entry either ignored
(unknown key) or decoded into its field with a later duplicate overwriting
an earlier one; a `null` value clears a pointer field; a value of the wrong
shape fails the whole decode.
-/

/-- Decode a JSON string. -/
def decodeString : Jv → Option String
  | Jv.str s => some s
  | _ => none

/-- Decode a JSON number into an integer field. -/
def decodeInt : Jv → Option Int
  | Jv.num n => some n
  | _ => none

/-- Decode a JSON boolean. -/
def decodeBool : Jv → Option Bool
  | Jv.bool b => some b
  | _ => none

/-- Modelled from the spec: `Timestamp` is external and unmarshals from a
JSON string or number, kept raw. -/
def decodeTimestamp : Jv → Option Timestamp
  | Jv.str s => some { raw := Jv.str s }
  | Jv.num n => some { raw := Jv.num n }
  | _ => none

/-- Modelled from the spec: `User` is external; a JSON object is kept raw. -/
def decodeUser : Jv → Option User
  | Jv.obj fs => some { raw := Jv.obj fs }
  | _ => none

/-- Modelled from the spec: `Label` is external; a JSON object is kept raw. -/
def decodeLabel : Jv → Option Label
  | Jv.obj fs => some { raw := Jv.obj fs }
  | _ => none

/-- Modelled from the spec: `Reactions` is external; a JSON object is kept
raw. -/
def decodeReactions : Jv → Option Reactions
  | Jv.obj fs => some { raw := Jv.obj fs }
  | _ => none

/-- Modelled from the spec: `Repository` is external; a JSON object is kept
raw. -/
def decodeRepository : Jv → Option Repository
  | Jv.obj fs => some { raw := Jv.obj fs }
  | _ => none

/-- Modelled from the spec: `TextMatch` is external; a JSON object is kept
raw. -/
def decodeTextMatch : Jv → Option TextMatch
  | Jv.obj fs => some { raw := Jv.obj fs }
  | _ => none

/-- Set an optional (pointer) field from a JSON value: `null` clears the
field, any other value must decode. -/
def setOpt {α β : Type} (dec : Jv → Option α) (v : Jv) (set : Option α → β) : Option β :=
  match v with
  | Jv.null => some (set none)
  | _ =>
    match dec v with
    | some x => some (set (some x))
    | none => none

/-- Decode a JSON array of nullable elements into a slice of pointers;
a JSON `null` in place of the array leaves the slice empty. -/
def decodeNullableArr {α : Type} (dec : Jv → Option α) : Jv → Option (List (Option α))
  | Jv.null => some []
  | Jv.arr xs => xs.mapM fun v =>
      match v with
      | Jv.null => some none
      | _ => (dec v).map some
  | _ => none

/-- Set a slice-of-pointers field from a JSON value. -/
def setList {α β : Type} (dec : Jv → Option α) (v : Jv) (set : List (Option α) → β) :
    Option β :=
  match decodeNullableArr dec v with
  | some xs => some (set xs)
  | none => none

/-- Apply one JSON object entry to a `PullRequestLinks` under decode. -/
def applyPullRequestLinksField (p : PullRequestLinks) (k : String) (v : Jv) :
    Option PullRequestLinks :=
  if k = "url" then setOpt decodeString v fun x => { p with URL := x }
  else if k = "html_url" then setOpt decodeString v fun x => { p with HTMLURL := x }
  else if k = "diff_url" then setOpt decodeString v fun x => { p with DiffURL := x }
  else if k = "patch_url" then setOpt decodeString v fun x => { p with PatchURL := x }
  else if k = "merged_at" then setOpt decodeTimestamp v fun x => { p with MergedAt := x }
  else some p

/-- Decode a JSON value into a `PullRequestLinks`. -/
def decodePullRequestLinks : Jv → Option PullRequestLinks
  | Jv.obj fields => fields.foldlM (fun acc kv => applyPullRequestLinksField acc kv.1 kv.2) {}
  | Jv.null => some {}
  | _ => none

/-- Apply one JSON object entry to an `IssueType` under decode. -/
def applyIssueTypeField (t : IssueType) (k : String) (v : Jv) : Option IssueType :=
  if k = "id" then setOpt decodeInt v fun x => { t with ID := x }
  else if k = "node_id" then setOpt decodeString v fun x => { t with NodeID := x }
  else if k = "name" then setOpt decodeString v fun x => { t with Name := x }
  else if k = "description" then setOpt decodeString v fun x => { t with Description := x }
  else if k = "color" then setOpt decodeString v fun x => { t with Color := x }
  else if k = "created_at" then setOpt decodeTimestamp v fun x => { t with CreatedAt := x }
  else if k = "updated_at" then setOpt decodeTimestamp v fun x => { t with UpdatedAt := x }
  else some t

/-- Decode a JSON value into an `IssueType`. -/
def decodeIssueType : Jv → Option IssueType
  | Jv.obj fields => fields.foldlM (fun acc kv => applyIssueTypeField acc kv.1 kv.2) {}
  | Jv.null => some {}
  | _ => none

/-- Apply one JSON object entry to a `Milestone` under decode. -/
def applyMilestoneField (m : Milestone) (k : String) (v : Jv) : Option Milestone :=
  if k = "url" then setOpt decodeString v fun x => { m with URL := x }
  else if k = "html_url" then setOpt decodeString v fun x => { m with HTMLURL := x }
  else if k = "labels_url" then setOpt decodeString v fun x => { m with LabelsURL := x }
  else if k = "id" then setOpt decodeInt v fun x => { m with ID := x }
  else if k = "number" then setOpt decodeInt v fun x => { m with Number := x }
  else if k = "state" then setOpt decodeString v fun x => { m with State := x }
  else if k = "title" then setOpt decodeString v fun x => { m with Title := x }
  else if k = "description" then setOpt decodeString v fun x => { m with Description := x }
  else if k = "creator" then setOpt decodeUser v fun x => { m with Creator := x }
  else if k = "open_issues" then setOpt decodeInt v fun x => { m with OpenIssues := x }
  else if k = "closed_issues" then setOpt decodeInt v fun x => { m with ClosedIssues := x }
  else if k = "created_at" then setOpt decodeTimestamp v fun x => { m with CreatedAt := x }
  else if k = "updated_at" then setOpt decodeTimestamp v fun x => { m with UpdatedAt := x }
  else if k = "closed_at" then setOpt decodeTimestamp v fun x => { m with ClosedAt := x }
  else if k = "due_on" then setOpt decodeTimestamp v fun x => { m with DueOn := x }
  else if k = "node_id" then setOpt decodeString v fun x => { m with NodeID := x }
  else some m

/-- Decode a JSON value into a `Milestone`. -/
def decodeMilestone : Jv → Option Milestone
  | Jv.obj fields => fields.foldlM (fun acc kv => applyMilestoneField acc kv.1 kv.2) {}
  | Jv.null => some {}
  | _ => none

/-- Apply one JSON object entry to an `Issue` under decode, per the source
struct's `json:"..."` tags. -/
def applyIssueField (i : Issue) (k : String) (v : Jv) : Option Issue :=
  if k = "id" then setOpt decodeInt v fun x => { i with ID := x }
  else if k = "number" then setOpt decodeInt v fun x => { i with Number := x }
  else if k = "state" then setOpt decodeString v fun x => { i with State := x }
  else if k = "state_reason" then setOpt decodeString v fun x => { i with StateReason := x }
  else if k = "locked" then setOpt decodeBool v fun x => { i with Locked := x }
  else if k = "title" then setOpt decodeString v fun x => { i with Title := x }
  else if k = "body" then setOpt decodeString v fun x => { i with Body := x }
  else if k = "author_association" then
    setOpt decodeString v fun x => { i with AuthorAssociation := x }
  else if k = "user" then setOpt decodeUser v fun x => { i with User := x }
  else if k = "labels" then setList decodeLabel v fun x => { i with Labels := x }
  else if k = "assignee" then setOpt decodeUser v fun x => { i with Assignee := x }
  else if k = "comments" then setOpt decodeInt v fun x => { i with Comments := x }
  else if k = "closed_at" then setOpt decodeTimestamp v fun x => { i with ClosedAt := x }
  else if k = "created_at" then setOpt decodeTimestamp v fun x => { i with CreatedAt := x }
  else if k = "updated_at" then setOpt decodeTimestamp v fun x => { i with UpdatedAt := x }
  else if k = "closed_by" then setOpt decodeUser v fun x => { i with ClosedBy := x }
  else if k = "url" then setOpt decodeString v fun x => { i with URL := x }
  else if k = "html_url" then setOpt decodeString v fun x => { i with HTMLURL := x }
  else if k = "comments_url" then setOpt decodeString v fun x => { i with CommentsURL := x }
  else if k = "events_url" then setOpt decodeString v fun x => { i with EventsURL := x }
  else if k = "labels_url" then setOpt decodeString v fun x => { i with LabelsURL := x }
  else if k = "repository_url" then
    setOpt decodeString v fun x => { i with RepositoryURL := x }
  else if k = "milestone" then setOpt decodeMilestone v fun x => { i with Milestone := x }
  else if k = "pull_request" then
    setOpt decodePullRequestLinks v fun x => { i with PullRequestLinks := x }
  else if k = "repository" then
    setOpt decodeRepository v fun x => { i with Repository := x }
  else if k = "reactions" then setOpt decodeReactions v fun x => { i with Reactions := x }
  else if k = "assignees" then setList decodeUser v fun x => { i with Assignees := x }
  else if k = "node_id" then setOpt decodeString v fun x => { i with NodeID := x }
  else if k = "draft" then setOpt decodeBool v fun x => { i with Draft := x }
  else if k = "type" then setOpt decodeIssueType v fun x => { i with Type' := x }
  else if k = "text_matches" then
    setList decodeTextMatch v fun x => { i with TextMatches := x }
  else if k = "active_lock_reason" then
    setOpt decodeString v fun x => { i with ActiveLockReason := x }
  else some i

/-- Decode a JSON value into an `Issue`. -/
def decodeIssue : Jv → Option Issue
  | Jv.obj fields => fields.foldlM (fun acc kv => applyIssueField acc kv.1 kv.2) {}
  | Jv.null => some {}
  | _ => none

/-- The value of the last occurrence of a key in a JSON object's entries
(a later duplicate overwrites an earlier one under decode). -/
def lookupLast (key : String) : List (String × Jv) → Option Jv
  | [] => none
  | kv :: rest =>
    match lookupLast key rest with
    | some w => some w
    | none => if kv.1 = key then some kv.2 else none

/-- Whether a JSON object's entries carry a non-null `pull_request` value
(looking at the last occurrence, as decoding does). -/
def prPresent (fields : List (String × Jv)) : Bool :=
  match lookupLast "pull_request" fields with
  | some v => !v.isNull
  | none => false

/-!
Formalization of "both pagination styles are accepted" for an option
record's encoder: an encoder accepts offset pagination when every non-zero
page number can appear as the integer `page` parameter, and cursor
pagination when every non-empty cursor string can appear as the `cursor`
parameter (the parameter only the cursor fragment carries).
-/

/-- The encoder accepts offset-style pagination. -/
def offsetPaginationAccepted {α : Type} (enc : α → List (String × String)) : Prop :=
  ∀ n : Int, n ≠ 0 → ∃ o, ("page", toString n) ∈ enc o

/-- The encoder accepts cursor-style pagination. -/
def cursorPaginationAccepted {α : Type} (enc : α → List (String × String)) : Prop :=
  ∀ s : String, s ≠ "" → ∃ o, ("cursor", s) ∈ enc o

/-- The claim that every list-options record of the module (issue listing
and milestone listing alike) accepts both pagination styles. -/
def allListOptionsAcceptBothStyles : Prop :=
  (offsetPaginationAccepted encodeIssueListOptions ∧
    cursorPaginationAccepted encodeIssueListOptions) ∧
  (offsetPaginationAccepted encodeIssueListByRepoOptions ∧
    cursorPaginationAccepted encodeIssueListByRepoOptions) ∧
  (offsetPaginationAccepted encodeMilestoneListOptions ∧
    cursorPaginationAccepted encodeMilestoneListOptions)

/-- A collaborator behaviour on which every request builds and executes
cleanly (used to instantiate the theorems at concrete inputs). -/
def okClient : Client :=
  { newRequestErr := fun _ _ _ => none
    doResp := fun _ => some {}
    doErr := fun _ => none
    doIssues := fun _ => []
    doIssue := fun _ => {}
    doMilestones := fun _ => []
    doMilestone := fun _ => {} }

/-- A collaborator behaviour on which request construction always fails. -/
def failClient : Client :=
  { newRequestErr := fun _ _ _ => some { msg := "bad request" }
    doResp := fun _ => none
    doErr := fun _ => none
    doIssues := fun _ => []
    doIssue := fun _ => {}
    doMilestones := fun _ => []
    doMilestone := fun _ => {} }

/-!
Helper lemmas: the request list each operation hands to `Do`, membership in
such a list, query-parameter filtering, and the decode lemmas behind the
pull-request predicate.
-/

theorem listIssues_sent (c : Client) (u : String) (opts : Option IssueListOptions) :
    (IssuesService.listIssues c u opts).sent =
      match c.newRequestErr "GET" (addOptionsIssueList u opts) none with
      | some _ => []
      | none => [{ method := "GET", url := addOptionsIssueList u opts, body := none,
                   headers := [("Accept", mediaTypeReactionsPreview)] }] := by
  unfold IssuesService.listIssues Client.newRequest
  cases h : c.newRequestErr "GET" (addOptionsIssueList u opts) none with
  | some e => simp [h]
  | none => simp only [h]; split <;> rfl

theorem listByRepo_sent (c : Client) (owner repo : String)
    (opts : Option IssueListByRepoOptions) :
    (IssuesService.ListByRepo c owner repo opts).sent =
      match c.newRequestErr "GET"
          (addOptionsIssueListByRepo ("repos/" ++ owner ++ "/" ++ repo ++ "/issues") opts)
          none with
      | some _ => []
      | none => [{ method := "GET",
                   url := addOptionsIssueListByRepo
                     ("repos/" ++ owner ++ "/" ++ repo ++ "/issues") opts,
                   body := none,
                   headers := [("Accept", mediaTypeReactionsPreview)] }] := by
  unfold IssuesService.ListByRepo Client.newRequest
  cases h : c.newRequestErr "GET"
      (addOptionsIssueListByRepo ("repos/" ++ owner ++ "/" ++ repo ++ "/issues") opts) none with
  | some e => simp [h]
  | none => simp only [h]; split <;> rfl

theorem get_sent (c : Client) (owner repo : String) (number : Int) :
    (IssuesService.Get c owner repo number).sent =
      match c.newRequestErr "GET"
          ("repos/" ++ owner ++ "/" ++ repo ++ "/issues/" ++ toString number) none with
      | some _ => []
      | none => [{ method := "GET",
                   url := "repos/" ++ owner ++ "/" ++ repo ++ "/issues/" ++ toString number,
                   body := none,
                   headers := [("Accept", mediaTypeReactionsPreview)] }] := by
  unfold IssuesService.Get Client.newRequest
  cases h : c.newRequestErr "GET"
      ("repos/" ++ owner ++ "/" ++ repo ++ "/issues/" ++ toString number) none with
  | some e => simp [h]
  | none => simp only [h]; split <;> rfl

theorem create_sent (c : Client) (owner repo : String) (issue : Option IssueRequest) :
    (IssuesService.Create c owner repo issue).sent =
      match c.newRequestErr "POST" ("repos/" ++ owner ++ "/" ++ repo ++ "/issues")
          (issue.map serializeIssueRequest) with
      | some _ => []
      | none => [{ method := "POST", url := "repos/" ++ owner ++ "/" ++ repo ++ "/issues",
                   body := issue.map serializeIssueRequest, headers := [] }] := by
  unfold IssuesService.Create Client.newRequest
  cases h : c.newRequestErr "POST" ("repos/" ++ owner ++ "/" ++ repo ++ "/issues")
      (issue.map serializeIssueRequest) with
  | some e => simp [h]
  | none => simp only [h]; split <;> rfl

theorem edit_sent (c : Client) (owner repo : String) (number : Int)
    (issue : Option IssueRequest) :
    (IssuesService.Edit c owner repo number issue).sent =
      match c.newRequestErr "PATCH"
          ("repos/" ++ owner ++ "/" ++ repo ++ "/issues/" ++ toString number)
          (issue.map serializeIssueRequest) with
      | some _ => []
      | none => [{ method := "PATCH",
                   url := "repos/" ++ owner ++ "/" ++ repo ++ "/issues/" ++ toString number,
                   body := issue.map serializeIssueRequest, headers := [] }] := by
  unfold IssuesService.Edit Client.newRequest
  cases h : c.newRequestErr "PATCH"
      ("repos/" ++ owner ++ "/" ++ repo ++ "/issues/" ++ toString number)
      (issue.map serializeIssueRequest) with
  | some e => simp [h]
  | none => simp only [h]; split <;> rfl

theorem removeMilestone_sent (c : Client) (owner repo : String) (issueNumber : Int) :
    (IssuesService.RemoveMilestone c owner repo issueNumber).sent =
      match c.newRequestErr "PATCH"
          ("repos/" ++ owner ++ "/" ++ repo ++ "/issues/" ++ toString issueNumber)
          (some (serializeMilestonePatch none)) with
      | some _ => []
      | none => [{ method := "PATCH",
                   url := "repos/" ++ owner ++ "/" ++ repo ++ "/issues/" ++ toString issueNumber,
                   body := some (serializeMilestonePatch none), headers := [] }] := by
  unfold IssuesService.RemoveMilestone Client.newRequest
  cases h : c.newRequestErr "PATCH"
      ("repos/" ++ owner ++ "/" ++ repo ++ "/issues/" ++ toString issueNumber)
      (some (serializeMilestonePatch none)) with
  | some e => simp [h]
  | none => simp only [h]; split <;> rfl

theorem lock_sent (c : Client) (owner repo : String) (number : Int)
    (opts : Option LockIssueOptions) :
    (IssuesService.Lock c owner repo number opts).sent =
      match c.newRequestErr "PUT"
          ("repos/" ++ owner ++ "/" ++ repo ++ "/issues/" ++ toString number ++ "/lock")
          (opts.map serializeLockIssueOptions) with
      | some _ => []
      | none => [{ method := "PUT",
                   url := "repos/" ++ owner ++ "/" ++ repo ++ "/issues/" ++
                     toString number ++ "/lock",
                   body := opts.map serializeLockIssueOptions, headers := [] }] := by
  unfold IssuesService.Lock Client.newRequest
  cases h : c.newRequestErr "PUT"
      ("repos/" ++ owner ++ "/" ++ repo ++ "/issues/" ++ toString number ++ "/lock")
      (opts.map serializeLockIssueOptions) with
  | some e => simp [h]
  | none => simp only [h]

theorem unlock_sent (c : Client) (owner repo : String) (number : Int) :
    (IssuesService.Unlock c owner repo number).sent =
      match c.newRequestErr "DELETE"
          ("repos/" ++ owner ++ "/" ++ repo ++ "/issues/" ++ toString number ++ "/lock")
          none with
      | some _ => []
      | none => [{ method := "DELETE",
                   url := "repos/" ++ owner ++ "/" ++ repo ++ "/issues/" ++
                     toString number ++ "/lock",
                   body := none, headers := [] }] := by
  unfold IssuesService.Unlock Client.newRequest
  cases h : c.newRequestErr "DELETE"
      ("repos/" ++ owner ++ "/" ++ repo ++ "/issues/" ++ toString number ++ "/lock") none with
  | some e => simp [h]
  | none => simp only [h]

theorem listMilestones_sent (c : Client) (owner repo : String)
    (opts : Option MilestoneListOptions) :
    (IssuesService.ListMilestones c owner repo opts).sent =
      match c.newRequestErr "GET"
          (addOptionsMilestoneList ("repos/" ++ owner ++ "/" ++ repo ++ "/milestones") opts)
          none with
      | some _ => []
      | none => [{ method := "GET",
                   url := addOptionsMilestoneList
                     ("repos/" ++ owner ++ "/" ++ repo ++ "/milestones") opts,
                   body := none, headers := [] }] := by
  unfold IssuesService.ListMilestones Client.newRequest
  cases h : c.newRequestErr "GET"
      (addOptionsMilestoneList ("repos/" ++ owner ++ "/" ++ repo ++ "/milestones") opts)
      none with
  | some e => simp [h]
  | none => simp only [h]; split <;> rfl

theorem getMilestone_sent (c : Client) (owner repo : String) (number : Int) :
    (IssuesService.GetMilestone c owner repo number).sent =
      match c.newRequestErr "GET"
          ("repos/" ++ owner ++ "/" ++ repo ++ "/milestones/" ++ toString number) none with
      | some _ => []
      | none => [{ method := "GET",
                   url := "repos/" ++ owner ++ "/" ++ repo ++ "/milestones/" ++ toString number,
                   body := none, headers := [] }] := by
  unfold IssuesService.GetMilestone Client.newRequest
  cases h : c.newRequestErr "GET"
      ("repos/" ++ owner ++ "/" ++ repo ++ "/milestones/" ++ toString number) none with
  | some e => simp [h]
  | none => simp only [h]; split <;> rfl

theorem createMilestone_sent (c : Client) (owner repo : String)
    (milestone : Option Milestone) :
    (IssuesService.CreateMilestone c owner repo milestone).sent =
      match c.newRequestErr "POST" ("repos/" ++ owner ++ "/" ++ repo ++ "/milestones")
          (milestone.map serializeMilestone) with
      | some _ => []
      | none => [{ method := "POST", url := "repos/" ++ owner ++ "/" ++ repo ++ "/milestones",
                   body := milestone.map serializeMilestone, headers := [] }] := by
  unfold IssuesService.CreateMilestone Client.newRequest
  cases h : c.newRequestErr "POST" ("repos/" ++ owner ++ "/" ++ repo ++ "/milestones")
      (milestone.map serializeMilestone) with
  | some e => simp [h]
  | none => simp only [h]; split <;> rfl

theorem editMilestone_sent (c : Client) (owner repo : String) (number : Int)
    (milestone : Option Milestone) :
    (IssuesService.EditMilestone c owner repo number milestone).sent =
      match c.newRequestErr "PATCH"
          ("repos/" ++ owner ++ "/" ++ repo ++ "/milestones/" ++ toString number)
          (milestone.map serializeMilestone) with
      | some _ => []
      | none => [{ method := "PATCH",
                   url := "repos/" ++ owner ++ "/" ++ repo ++ "/milestones/" ++ toString number,
                   body := milestone.map serializeMilestone, headers := [] }] := by
  unfold IssuesService.EditMilestone Client.newRequest
  cases h : c.newRequestErr "PATCH"
      ("repos/" ++ owner ++ "/" ++ repo ++ "/milestones/" ++ toString number)
      (milestone.map serializeMilestone) with
  | some e => simp [h]
  | none => simp only [h]; split <;> rfl

theorem deleteMilestone_sent (c : Client) (owner repo : String) (number : Int) :
    (IssuesService.DeleteMilestone c owner repo number).sent =
      match c.newRequestErr "DELETE"
          ("repos/" ++ owner ++ "/" ++ repo ++ "/milestones/" ++ toString number) none with
      | some _ => []
      | none => [{ method := "DELETE",
                   url := "repos/" ++ owner ++ "/" ++ repo ++ "/milestones/" ++ toString number,
                   body := none, headers := [] }] := by
  unfold IssuesService.DeleteMilestone Client.newRequest
  cases h : c.newRequestErr "DELETE"
      ("repos/" ++ owner ++ "/" ++ repo ++ "/milestones/" ++ toString number) none with
  | some e => simp [h]
  | none => simp only [h]

theorem mem_match_sent {r req : Request} {e : Option GoErr}
    (hreq : req ∈ (match e with
      | some _ => ([] : List Request)
      | none => [r])) : req = r := by
  cases e with
  | some _ => exact absurd hreq (by simp)
  | none => simpa using hreq

theorem filter_optStr_ne (key k v : String) (h : ¬ k = key) :
    (optStr k v).filter (fun p => p.1 == key) = [] := by
  unfold optStr
  split
  · rfl
  · simp [h]

theorem filter_optInt_ne (key k : String) (n : Int) (h : ¬ k = key) :
    (optInt k n).filter (fun p => p.1 == key) = [] := by
  unfold optInt
  split
  · rfl
  · simp [h]

theorem filter_optTime_ne (key k : String) (t : Option GoTime) (h : ¬ k = key) :
    (optTime k t).filter (fun p => p.1 == key) = [] := by
  unfold optTime
  split
  · rfl
  · simp [h]

theorem milestone_encode_no_cursor :
    ∀ (o : MilestoneListOptions) (s : String),
      ("cursor", s) ∉ encodeMilestoneListOptions o := by
  intro o s hmem
  simp only [encodeMilestoneListOptions, encodeListOptions, optStr, optInt,
    List.mem_append] at hmem
  rcases hmem with ((h | h) | h) | (h | h) <;> (split at h <;> simp at h)

theorem setOpt_shape {α β : Type} {dec : Jv → Option α} {v : Jv} {set : Option α → β} {b : β}
    (h : setOpt dec v set = some b) : ∃ y, b = set y := by
  unfold setOpt at h
  split at h
  · exact ⟨none, (Option.some_inj.mp h).symm⟩
  · split at h
    · next x _ => exact ⟨some x, (Option.some_inj.mp h).symm⟩
    · exact absurd h (by simp)

theorem setList_shape {α β : Type} {dec : Jv → Option α} {v : Jv}
    {set : List (Option α) → β} {b : β}
    (h : setList dec v set = some b) : ∃ ys, b = set ys := by
  unfold setList at h
  split at h
  · next xs _ => exact ⟨xs, (Option.some_inj.mp h).symm⟩
  · exact absurd h (by simp)

theorem setOpt_pr {v : Jv} {i i' : Issue}
    (h : setOpt decodePullRequestLinks v (fun x => { i with PullRequestLinks := x }) = some i') :
    i'.PullRequestLinks.isSome = !v.isNull := by
  cases v with
  | null =>
    simp only [setOpt] at h
    injection h with h2
    subst h2
    rfl
  | bool b => simp only [setOpt, decodePullRequestLinks] at h; exact Option.noConfusion h
  | num n => simp only [setOpt, decodePullRequestLinks] at h; exact Option.noConfusion h
  | str s => simp only [setOpt, decodePullRequestLinks] at h; exact Option.noConfusion h
  | arr xs => simp only [setOpt, decodePullRequestLinks] at h; exact Option.noConfusion h
  | obj fs =>
    cases hd : decodePullRequestLinks (Jv.obj fs) with
    | none => simp only [setOpt, hd] at h; exact Option.noConfusion h
    | some p => simp only [setOpt, hd] at h; injection h with h2; subst h2; rfl

set_option maxHeartbeats 1600000 in
theorem applyIssueField_pr {i i' : Issue} {k : String} {v : Jv}
    (h : applyIssueField i k v = some i') :
    i'.PullRequestLinks.isSome =
      (if k = "pull_request" then !v.isNull else i.PullRequestLinks.isSome) := by
  by_cases hk : k = "pull_request"
  · subst hk
    rw [if_pos rfl]
    have hred : applyIssueField i "pull_request" v =
        setOpt decodePullRequestLinks v (fun x => { i with PullRequestLinks := x }) := rfl
    rw [hred] at h
    exact setOpt_pr h
  · rw [if_neg hk]
    unfold applyIssueField at h
    by_cases h1 : k = "id"
    · rw [if_pos h1] at h
      obtain ⟨y, rfl⟩ := setOpt_shape h
      rfl
    · rw [if_neg h1] at h
      by_cases h2 : k = "number"
      · rw [if_pos h2] at h
        obtain ⟨y, rfl⟩ := setOpt_shape h
        rfl
      · rw [if_neg h2] at h
        by_cases h3 : k = "state"
        · rw [if_pos h3] at h
          obtain ⟨y, rfl⟩ := setOpt_shape h
          rfl
        · rw [if_neg h3] at h
          by_cases h4 : k = "state_reason"
          · rw [if_pos h4] at h
            obtain ⟨y, rfl⟩ := setOpt_shape h
            rfl
          · rw [if_neg h4] at h
            by_cases h5 : k = "locked"
            · rw [if_pos h5] at h
              obtain ⟨y, rfl⟩ := setOpt_shape h
              rfl
            · rw [if_neg h5] at h
              by_cases h6 : k = "title"
              · rw [if_pos h6] at h
                obtain ⟨y, rfl⟩ := setOpt_shape h
                rfl
              · rw [if_neg h6] at h
                by_cases h7 : k = "body"
                · rw [if_pos h7] at h
                  obtain ⟨y, rfl⟩ := setOpt_shape h
                  rfl
                · rw [if_neg h7] at h
                  by_cases h8 : k = "author_association"
                  · rw [if_pos h8] at h
                    obtain ⟨y, rfl⟩ := setOpt_shape h
                    rfl
                  · rw [if_neg h8] at h
                    by_cases h9 : k = "user"
                    · rw [if_pos h9] at h
                      obtain ⟨y, rfl⟩ := setOpt_shape h
                      rfl
                    · rw [if_neg h9] at h
                      by_cases h10 : k = "labels"
                      · rw [if_pos h10] at h
                        obtain ⟨ys, rfl⟩ := setList_shape h
                        rfl
                      · rw [if_neg h10] at h
                        by_cases h11 : k = "assignee"
                        · rw [if_pos h11] at h
                          obtain ⟨y, rfl⟩ := setOpt_shape h
                          rfl
                        · rw [if_neg h11] at h
                          by_cases h12 : k = "comments"
                          · rw [if_pos h12] at h
                            obtain ⟨y, rfl⟩ := setOpt_shape h
                            rfl
                          · rw [if_neg h12] at h
                            by_cases h13 : k = "closed_at"
                            · rw [if_pos h13] at h
                              obtain ⟨y, rfl⟩ := setOpt_shape h
                              rfl
                            · rw [if_neg h13] at h
                              by_cases h14 : k = "created_at"
                              · rw [if_pos h14] at h
                                obtain ⟨y, rfl⟩ := setOpt_shape h
                                rfl
                              · rw [if_neg h14] at h
                                by_cases h15 : k = "updated_at"
                                · rw [if_pos h15] at h
                                  obtain ⟨y, rfl⟩ := setOpt_shape h
                                  rfl
                                · rw [if_neg h15] at h
                                  by_cases h16 : k = "closed_by"
                                  · rw [if_pos h16] at h
                                    obtain ⟨y, rfl⟩ := setOpt_shape h
                                    rfl
                                  · rw [if_neg h16] at h
                                    by_cases h17 : k = "url"
                                    · rw [if_pos h17] at h
                                      obtain ⟨y, rfl⟩ := setOpt_shape h
                                      rfl
                                    · rw [if_neg h17] at h
                                      by_cases h18 : k = "html_url"
                                      · rw [if_pos h18] at h
                                        obtain ⟨y, rfl⟩ := setOpt_shape h
                                        rfl
                                      · rw [if_neg h18] at h
                                        by_cases h19 : k = "comments_url"
                                        · rw [if_pos h19] at h
                                          obtain ⟨y, rfl⟩ := setOpt_shape h
                                          rfl
                                        · rw [if_neg h19] at h
                                          by_cases h20 : k = "events_url"
                                          · rw [if_pos h20] at h
                                            obtain ⟨y, rfl⟩ := setOpt_shape h
                                            rfl
                                          · rw [if_neg h20] at h
                                            by_cases h21 : k = "labels_url"
                                            · rw [if_pos h21] at h
                                              obtain ⟨y, rfl⟩ := setOpt_shape h
                                              rfl
                                            · rw [if_neg h21] at h
                                              by_cases h22 : k = "repository_url"
                                              · rw [if_pos h22] at h
                                                obtain ⟨y, rfl⟩ := setOpt_shape h
                                                rfl
                                              · rw [if_neg h22] at h
                                                by_cases h23 : k = "milestone"
                                                · rw [if_pos h23] at h
                                                  obtain ⟨y, rfl⟩ := setOpt_shape h
                                                  rfl
                                                · rw [if_neg h23] at h
                                                  rw [if_neg hk] at h
                                                  by_cases h24 : k = "repository"
                                                  · rw [if_pos h24] at h
                                                    obtain ⟨y, rfl⟩ := setOpt_shape h
                                                    rfl
                                                  · rw [if_neg h24] at h
                                                    by_cases h25 : k = "reactions"
                                                    · rw [if_pos h25] at h
                                                      obtain ⟨y, rfl⟩ := setOpt_shape h
                                                      rfl
                                                    · rw [if_neg h25] at h
                                                      by_cases h26 : k = "assignees"
                                                      · rw [if_pos h26] at h
                                                        obtain ⟨ys, rfl⟩ := setList_shape h
                                                        rfl
                                                      · rw [if_neg h26] at h
                                                        by_cases h27 : k = "node_id"
                                                        · rw [if_pos h27] at h
                                                          obtain ⟨y, rfl⟩ := setOpt_shape h
                                                          rfl
                                                        · rw [if_neg h27] at h
                                                          by_cases h28 : k = "draft"
                                                          · rw [if_pos h28] at h
                                                            obtain ⟨y, rfl⟩ := setOpt_shape h
                                                            rfl
                                                          · rw [if_neg h28] at h
                                                            by_cases h29 : k = "type"
                                                            · rw [if_pos h29] at h
                                                              obtain ⟨y, rfl⟩ := setOpt_shape h
                                                              rfl
                                                            · rw [if_neg h29] at h
                                                              by_cases h30 : k = "text_matches"
                                                              · rw [if_pos h30] at h
                                                                obtain ⟨ys, rfl⟩ := setList_shape h
                                                                rfl
                                                              · rw [if_neg h30] at h
                                                                by_cases h31 : k = "active_lock_reason"
                                                                · rw [if_pos h31] at h
                                                                  obtain ⟨y, rfl⟩ := setOpt_shape h
                                                                  rfl
                                                                · rw [if_neg h31] at h
                                                                  rw [← Option.some_inj.mp h]

theorem foldIssue_pr :
    ∀ (fields : List (String × Jv)) (acc i : Issue),
      fields.foldlM (fun acc kv => applyIssueField acc kv.1 kv.2) acc = some i →
      i.PullRequestLinks.isSome =
        (match lookupLast "pull_request" fields with
         | some v => !v.isNull
         | none => acc.PullRequestLinks.isSome) := by
  intro fields
  induction fields with
  | nil =>
    intro acc i h
    obtain rfl : acc = i := Option.some_inj.mp h
    rfl
  | cons kv rest ih =>
    intro acc i h
    rw [List.foldlM_cons] at h
    cases h1 : applyIssueField acc kv.1 kv.2 with
    | none => rw [h1] at h; exact Option.noConfusion h
    | some acc1 =>
      rw [h1] at h
      have hrec := ih acc1 i h
      have hstep := applyIssueField_pr h1
      unfold lookupLast
      cases hl : lookupLast "pull_request" rest with
      | some w => rw [hl] at hrec; exact hrec
      | none =>
        rw [hl] at hrec
        rw [hstep] at hrec
        by_cases hpk : kv.1 = "pull_request"
        · rw [if_pos hpk] at hrec ⊢
          exact hrec
        · rw [if_neg hpk] at hrec ⊢
          exact hrec


/-!
The claims. Each theorem below settles one claim of the specification
against the embedding above.
-/

/-- C1: for every (owner, repo, issueNumber), `RemoveMilestone` issues a
PATCH to `repos/{owner}/{repo}/issues/{issueNumber}` whose JSON body is
exactly `{"milestone": null}`: the milestone key is present with an explicit
null value, not omitted from the body. -/
theorem removeMilestone_sends_explicit_null_milestone :
    ∀ (c : Client) (owner repo : String) (issueNumber : Int),
      serializeMilestonePatch none = Jv.obj [("milestone", Jv.null)] ∧
      (IssuesService.RemoveMilestone c owner repo issueNumber).sent =
        (match c.newRequestErr "PATCH"
            ("repos/" ++ owner ++ "/" ++ repo ++ "/issues/" ++ toString issueNumber)
            (some (serializeMilestonePatch none)) with
        | some _ => []
        | none => [{ method := "PATCH",
                     url := "repos/" ++ owner ++ "/" ++ repo ++ "/issues/" ++
                       toString issueNumber,
                     body := some (serializeMilestonePatch none), headers := [] }]) :=
  fun c owner repo issueNumber => ⟨rfl, removeMilestone_sent c owner repo issueNumber⟩

/-- C2 (counterexample): it is not the case that every list-options record
accepts both pagination styles: `MilestoneListOptions` never encodes a
cursor-style parameter. -/
theorem milestone_list_options_lack_cursor_pagination :
    ¬ allListOptionsAcceptBothStyles := by
  intro hclaim
  obtain ⟨o, hmem⟩ := hclaim.2.2.2 "abc" (by decide)
  exact milestone_encode_no_cursor o "abc" hmem

/-- C2 (amended): the issue list-options records compose both the offset and
the cursor pagination fragments, so both styles are accepted there; the
milestone list-options record composes only the offset fragment and never
encodes a cursor-style parameter. -/
theorem pagination_styles_per_list_options_record :
    (offsetPaginationAccepted encodeIssueListOptions ∧
      cursorPaginationAccepted encodeIssueListOptions) ∧
    (offsetPaginationAccepted encodeIssueListByRepoOptions ∧
      cursorPaginationAccepted encodeIssueListByRepoOptions) ∧
    (offsetPaginationAccepted encodeMilestoneListOptions ∧
      ∀ (o : MilestoneListOptions) (s : String),
        ("cursor", s) ∉ encodeMilestoneListOptions o) := by
  refine ⟨⟨?_, ?_⟩, ⟨?_, ?_⟩, ?_, milestone_encode_no_cursor⟩
  · intro n hn
    exact ⟨{ listOpts := { Page := n } }, by
      simp [encodeIssueListOptions, encodeListCursorOptions, encodeListOptions,
        optStr, optInt, optCommaList, optTime, hn]⟩
  · intro s hs
    exact ⟨{ cursorOpts := { Cursor := s } }, by
      simp [encodeIssueListOptions, encodeListCursorOptions, encodeListOptions,
        optStr, optInt, optCommaList, optTime, hs]⟩
  · intro n hn
    exact ⟨{ listOpts := { Page := n } }, by
      simp [encodeIssueListByRepoOptions, encodeListCursorOptions, encodeListOptions,
        optStr, optInt, optCommaList, optTime, hn]⟩
  · intro s hs
    exact ⟨{ cursorOpts := { Cursor := s } }, by
      simp [encodeIssueListByRepoOptions, encodeListCursorOptions, encodeListOptions,
        optStr, optInt, optCommaList, optTime, hs]⟩
  · intro n hn
    exact ⟨{ listOpts := { Page := n } }, by
      simp [encodeMilestoneListOptions, encodeListOptions, optStr, optInt, hn]⟩

/-- C3: the reactions-preview Accept header is attached to exactly the
issue-list operations (List, ListByOrg, ListByRepo) and the issue Get
operation; every other operation of the module sends its request with no
headers set. -/
theorem reactions_preview_header_exactly_on_issue_list_and_get :
    ∀ (c : Client) (owner repo org : String) (number : Int) (all : Bool)
      (optsL : Option IssueListOptions) (optsR : Option IssueListByRepoOptions)
      (optsM : Option MilestoneListOptions) (ireq : Option IssueRequest)
      (lopts : Option LockIssueOptions) (m : Option Milestone),
      (∀ req ∈ (IssuesService.List c all optsL).sent,
        req.headers = [("Accept", mediaTypeReactionsPreview)]) ∧
      (∀ req ∈ (IssuesService.ListByOrg c org optsL).sent,
        req.headers = [("Accept", mediaTypeReactionsPreview)]) ∧
      (∀ req ∈ (IssuesService.ListByRepo c owner repo optsR).sent,
        req.headers = [("Accept", mediaTypeReactionsPreview)]) ∧
      (∀ req ∈ (IssuesService.Get c owner repo number).sent,
        req.headers = [("Accept", mediaTypeReactionsPreview)]) ∧
      (∀ req ∈ (IssuesService.Create c owner repo ireq).sent, req.headers = []) ∧
      (∀ req ∈ (IssuesService.Edit c owner repo number ireq).sent, req.headers = []) ∧
      (∀ req ∈ (IssuesService.RemoveMilestone c owner repo number).sent,
        req.headers = []) ∧
      (∀ req ∈ (IssuesService.Lock c owner repo number lopts).sent, req.headers = []) ∧
      (∀ req ∈ (IssuesService.Unlock c owner repo number).sent, req.headers = []) ∧
      (∀ req ∈ (IssuesService.ListMilestones c owner repo optsM).sent,
        req.headers = []) ∧
      (∀ req ∈ (IssuesService.GetMilestone c owner repo number).sent,
        req.headers = []) ∧
      (∀ req ∈ (IssuesService.CreateMilestone c owner repo m).sent,
        req.headers = []) ∧
      (∀ req ∈ (IssuesService.EditMilestone c owner repo number m).sent,
        req.headers = []) ∧
      (∀ req ∈ (IssuesService.DeleteMilestone c owner repo number).sent,
        req.headers = []) := by
  intro c owner repo org number all optsL optsR optsM ireq lopts m
  refine ⟨?_, ?_, ?_, ?_, ?_, ?_, ?_, ?_, ?_, ?_, ?_, ?_, ?_, ?_⟩
  · intro req hreq
    rw [show IssuesService.List c all optsL =
        IssuesService.listIssues c (if all then "issues" else "user/issues") optsL
        from rfl, listIssues_sent] at hreq
    cases mem_match_sent hreq
    rfl
  · intro req hreq
    rw [show IssuesService.ListByOrg c org optsL =
        IssuesService.listIssues c ("orgs/" ++ org ++ "/issues") optsL from rfl,
      listIssues_sent] at hreq
    cases mem_match_sent hreq
    rfl
  · intro req hreq
    rw [listByRepo_sent] at hreq
    cases mem_match_sent hreq
    rfl
  · intro req hreq
    rw [get_sent] at hreq
    cases mem_match_sent hreq
    rfl
  · intro req hreq
    rw [create_sent] at hreq
    cases mem_match_sent hreq
    rfl
  · intro req hreq
    rw [edit_sent] at hreq
    cases mem_match_sent hreq
    rfl
  · intro req hreq
    rw [removeMilestone_sent] at hreq
    cases mem_match_sent hreq
    rfl
  · intro req hreq
    rw [lock_sent] at hreq
    cases mem_match_sent hreq
    rfl
  · intro req hreq
    rw [unlock_sent] at hreq
    cases mem_match_sent hreq
    rfl
  · intro req hreq
    rw [listMilestones_sent] at hreq
    cases mem_match_sent hreq
    rfl
  · intro req hreq
    rw [getMilestone_sent] at hreq
    cases mem_match_sent hreq
    rfl
  · intro req hreq
    rw [createMilestone_sent] at hreq
    cases mem_match_sent hreq
    rfl
  · intro req hreq
    rw [editMilestone_sent] at hreq
    cases mem_match_sent hreq
    rfl
  · intro req hreq
    rw [deleteMilestone_sent] at hreq
    cases mem_match_sent hreq
    rfl

/-- C4: for every (owner, repo, number), `Get` builds its request for the
path `repos/{owner}/{repo}/issues/{number}` with HTTP method GET and the
reactions-preview Accept header set on it; that request is the one passed to
the collaborator (none when request construction fails). -/
theorem get_requests_issue_path_via_get_with_preview_header :
    ∀ (c : Client) (owner repo : String) (number : Int),
      (IssuesService.Get c owner repo number).sent =
        (match c.newRequestErr "GET"
            ("repos/" ++ owner ++ "/" ++ repo ++ "/issues/" ++ toString number) none with
        | some _ => []
        | none => [{ method := "GET",
                     url := "repos/" ++ owner ++ "/" ++ repo ++ "/issues/" ++
                       toString number,
                     body := none,
                     headers := [("Accept", mediaTypeReactionsPreview)] }]) :=
  fun c owner repo number => get_sent c owner repo number

/-- C5: `List` selects its endpoint purely from the boolean argument:
with `true` it is the shared tail at path `issues`, with `false` at
`user/issues`, and with nil options the request sent is a GET to exactly
that path; everything else about the two calls is identical. -/
theorem list_selects_endpoint_from_flag :
    ∀ (c : Client) (opts : Option IssueListOptions),
      IssuesService.List c true opts = IssuesService.listIssues c "issues" opts ∧
      IssuesService.List c false opts = IssuesService.listIssues c "user/issues" opts ∧
      (IssuesService.List c true none).sent =
        (match c.newRequestErr "GET" "issues" none with
         | some _ => []
         | none => [{ method := "GET", url := "issues", body := none,
                      headers := [("Accept", mediaTypeReactionsPreview)] }]) ∧
      (IssuesService.List c false none).sent =
        (match c.newRequestErr "GET" "user/issues" none with
         | some _ => []
         | none => [{ method := "GET", url := "user/issues", body := none,
                      headers := [("Accept", mediaTypeReactionsPreview)] }]) :=
  fun c opts =>
    ⟨rfl, rfl, listIssues_sent c "issues" none, listIssues_sent c "user/issues" none⟩

/-- C6: `Lock` with LockReason "spam" issues a PUT to
`repos/{owner}/{repo}/issues/{number}/lock` with JSON body
`{"lock_reason":"spam"}`, and `Lock` with no options issues the same PUT
with an absent body. -/
theorem lock_put_body_matches_options :
    ∀ (c : Client) (owner repo : String) (number : Int),
      serializeLockIssueOptions { LockReason := "spam" } =
        Jv.obj [("lock_reason", Jv.str "spam")] ∧
      (IssuesService.Lock c owner repo number (some { LockReason := "spam" })).sent =
        (match c.newRequestErr "PUT"
            ("repos/" ++ owner ++ "/" ++ repo ++ "/issues/" ++ toString number ++ "/lock")
            (some (serializeLockIssueOptions { LockReason := "spam" })) with
         | some _ => []
         | none => [{ method := "PUT",
                      url := "repos/" ++ owner ++ "/" ++ repo ++ "/issues/" ++
                        toString number ++ "/lock",
                      body := some (serializeLockIssueOptions { LockReason := "spam" }),
                      headers := [] }]) ∧
      (IssuesService.Lock c owner repo number none).sent =
        (match c.newRequestErr "PUT"
            ("repos/" ++ owner ++ "/" ++ repo ++ "/issues/" ++ toString number ++ "/lock")
            none with
         | some _ => []
         | none => [{ method := "PUT",
                      url := "repos/" ++ owner ++ "/" ++ repo ++ "/issues/" ++
                        toString number ++ "/lock",
                      body := none, headers := [] }]) :=
  fun c owner repo number =>
    ⟨rfl, lock_sent c owner repo number (some { LockReason := "spam" }),
      lock_sent c owner repo number none⟩

/-- C7: encoding an `IssueListByRepoOptions` whose Labels field is
["bug", "p1"] produces the single query parameter `labels=bug,p1`: the
label list serializes as one comma-joined parameter, not repeated ones. -/
theorem labels_encode_as_single_comma_joined_parameter :
    ∀ (o : IssueListByRepoOptions),
      (encodeIssueListByRepoOptions { o with Labels := ["bug", "p1"] }).filter
        (fun p => p.1 == "labels") = [("labels", "bug,p1")] := by
  intro o
  cases o
  unfold encodeIssueListByRepoOptions encodeListCursorOptions encodeListOptions
  simp only [List.filter_append]
  rw [filter_optStr_ne _ _ _ (by simp), filter_optStr_ne _ _ _ (by simp),
      filter_optStr_ne _ _ _ (by simp), filter_optStr_ne _ _ _ (by simp),
      filter_optStr_ne _ _ _ (by simp), filter_optStr_ne _ _ _ (by simp),
      filter_optStr_ne _ _ _ (by simp), filter_optTime_ne _ _ _ (by simp),
      filter_optStr_ne _ _ _ (by simp), filter_optStr_ne _ _ _ (by simp),
      filter_optInt_ne _ _ _ (by simp), filter_optInt_ne _ _ _ (by simp)]
  rfl

/-- C8: for every operation, when the collaborator's request construction
fails the operation returns that error at once, with nil response, nil
result value and no request handed to `Do`. -/
theorem construction_failure_returns_error_without_network_call :
    ∀ (c : Client) (e : GoErr) (owner repo org : String) (number : Int) (all : Bool)
      (optsL : Option IssueListOptions) (optsR : Option IssueListByRepoOptions)
      (optsM : Option MilestoneListOptions) (ireq : Option IssueRequest)
      (lopts : Option LockIssueOptions) (m : Option Milestone),
      (c.newRequestErr "GET"
          (addOptionsIssueList (if all then "issues" else "user/issues") optsL)
          none = some e →
        IssuesService.List c all optsL =
          { value := none, resp := none, err := some e, sent := [] }) ∧
      (c.newRequestErr "GET"
          (addOptionsIssueList ("orgs/" ++ org ++ "/issues") optsL) none = some e →
        IssuesService.ListByOrg c org optsL =
          { value := none, resp := none, err := some e, sent := [] }) ∧
      (c.newRequestErr "GET"
          (addOptionsIssueListByRepo ("repos/" ++ owner ++ "/" ++ repo ++ "/issues") optsR)
          none = some e →
        IssuesService.ListByRepo c owner repo optsR =
          { value := none, resp := none, err := some e, sent := [] }) ∧
      (c.newRequestErr "GET"
          ("repos/" ++ owner ++ "/" ++ repo ++ "/issues/" ++ toString number)
          none = some e →
        IssuesService.Get c owner repo number =
          { value := none, resp := none, err := some e, sent := [] }) ∧
      (c.newRequestErr "POST" ("repos/" ++ owner ++ "/" ++ repo ++ "/issues")
          (ireq.map serializeIssueRequest) = some e →
        IssuesService.Create c owner repo ireq =
          { value := none, resp := none, err := some e, sent := [] }) ∧
      (c.newRequestErr "PATCH"
          ("repos/" ++ owner ++ "/" ++ repo ++ "/issues/" ++ toString number)
          (ireq.map serializeIssueRequest) = some e →
        IssuesService.Edit c owner repo number ireq =
          { value := none, resp := none, err := some e, sent := [] }) ∧
      (c.newRequestErr "PATCH"
          ("repos/" ++ owner ++ "/" ++ repo ++ "/issues/" ++ toString number)
          (some (serializeMilestonePatch none)) = some e →
        IssuesService.RemoveMilestone c owner repo number =
          { value := none, resp := none, err := some e, sent := [] }) ∧
      (c.newRequestErr "PUT"
          ("repos/" ++ owner ++ "/" ++ repo ++ "/issues/" ++ toString number ++ "/lock")
          (lopts.map serializeLockIssueOptions) = some e →
        IssuesService.Lock c owner repo number lopts =
          { resp := none, err := some e, sent := [] }) ∧
      (c.newRequestErr "DELETE"
          ("repos/" ++ owner ++ "/" ++ repo ++ "/issues/" ++ toString number ++ "/lock")
          none = some e →
        IssuesService.Unlock c owner repo number =
          { resp := none, err := some e, sent := [] }) ∧
      (c.newRequestErr "GET"
          (addOptionsMilestoneList ("repos/" ++ owner ++ "/" ++ repo ++ "/milestones") optsM)
          none = some e →
        IssuesService.ListMilestones c owner repo optsM =
          { value := none, resp := none, err := some e, sent := [] }) ∧
      (c.newRequestErr "GET"
          ("repos/" ++ owner ++ "/" ++ repo ++ "/milestones/" ++ toString number)
          none = some e →
        IssuesService.GetMilestone c owner repo number =
          { value := none, resp := none, err := some e, sent := [] }) ∧
      (c.newRequestErr "POST" ("repos/" ++ owner ++ "/" ++ repo ++ "/milestones")
          (m.map serializeMilestone) = some e →
        IssuesService.CreateMilestone c owner repo m =
          { value := none, resp := none, err := some e, sent := [] }) ∧
      (c.newRequestErr "PATCH"
          ("repos/" ++ owner ++ "/" ++ repo ++ "/milestones/" ++ toString number)
          (m.map serializeMilestone) = some e →
        IssuesService.EditMilestone c owner repo number m =
          { value := none, resp := none, err := some e, sent := [] }) ∧
      (c.newRequestErr "DELETE"
          ("repos/" ++ owner ++ "/" ++ repo ++ "/milestones/" ++ toString number)
          none = some e →
        IssuesService.DeleteMilestone c owner repo number =
          { resp := none, err := some e, sent := [] }) := by
  intro c e owner repo org number all optsL optsR optsM ireq lopts m
  refine ⟨?_, ?_, ?_, ?_, ?_, ?_, ?_, ?_, ?_, ?_, ?_, ?_, ?_, ?_⟩ <;>
    (intro h
     simp only [IssuesService.List, IssuesService.listIssues, IssuesService.ListByOrg,
       IssuesService.ListByRepo, IssuesService.Get, IssuesService.Create,
       IssuesService.Edit, IssuesService.RemoveMilestone, IssuesService.Lock,
       IssuesService.Unlock, IssuesService.ListMilestones, IssuesService.GetMilestone,
       IssuesService.CreateMilestone, IssuesService.EditMilestone,
       IssuesService.DeleteMilestone, Client.newRequest]
     rw [h])

/-- C9: for every Issue value, IsPullRequest returns true exactly when
PullRequestLinks is non-nil; an Issue decoded from a JSON object whose
(last) `pull_request` entry is non-null reports itself as a pull request,
and one decoded from an object without that key does not. -/
theorem isPullRequest_iff_nonnull_pull_request :
    (∀ i : Issue, i.IsPullRequest = true ↔ i.PullRequestLinks ≠ none) ∧
    (∀ (fields : List (String × Jv)) (i : Issue),
      decodeIssue (Jv.obj fields) = some i →
      (i.IsPullRequest = true ↔ prPresent fields = true)) := by
  constructor
  · intro i
    simp [Issue.IsPullRequest, Option.isSome_iff_ne_none]
  · intro fields i h
    have hf := foldIssue_pr fields {} i h
    rw [show ({} : Issue).PullRequestLinks.isSome = false from rfl] at hf
    unfold Issue.IsPullRequest prPresent
    rw [hf]

/-- C10: for every value-returning operation, whenever it returns a non-nil
error its entity or list result is nil: no decoded value is surfaced
alongside an error. -/
theorem error_result_implies_nil_value :
    ∀ (c : Client) (owner repo org : String) (number : Int) (all : Bool)
      (optsL : Option IssueListOptions) (optsR : Option IssueListByRepoOptions)
      (optsM : Option MilestoneListOptions) (ireq : Option IssueRequest)
      (m : Option Milestone),
      ((IssuesService.List c all optsL).err ≠ none →
        (IssuesService.List c all optsL).value = none) ∧
      ((IssuesService.ListByOrg c org optsL).err ≠ none →
        (IssuesService.ListByOrg c org optsL).value = none) ∧
      ((IssuesService.ListByRepo c owner repo optsR).err ≠ none →
        (IssuesService.ListByRepo c owner repo optsR).value = none) ∧
      ((IssuesService.Get c owner repo number).err ≠ none →
        (IssuesService.Get c owner repo number).value = none) ∧
      ((IssuesService.Create c owner repo ireq).err ≠ none →
        (IssuesService.Create c owner repo ireq).value = none) ∧
      ((IssuesService.Edit c owner repo number ireq).err ≠ none →
        (IssuesService.Edit c owner repo number ireq).value = none) ∧
      ((IssuesService.RemoveMilestone c owner repo number).err ≠ none →
        (IssuesService.RemoveMilestone c owner repo number).value = none) ∧
      ((IssuesService.ListMilestones c owner repo optsM).err ≠ none →
        (IssuesService.ListMilestones c owner repo optsM).value = none) ∧
      ((IssuesService.GetMilestone c owner repo number).err ≠ none →
        (IssuesService.GetMilestone c owner repo number).value = none) ∧
      ((IssuesService.CreateMilestone c owner repo m).err ≠ none →
        (IssuesService.CreateMilestone c owner repo m).value = none) ∧
      ((IssuesService.EditMilestone c owner repo number m).err ≠ none →
        (IssuesService.EditMilestone c owner repo number m).value = none) := by
  intro c owner repo org number all optsL optsR optsM ireq m
  refine ⟨?_, ?_, ?_, ?_, ?_, ?_, ?_, ?_, ?_, ?_, ?_⟩ <;>
    (intro h
     refine Or.resolve_right ?_ h
     simp only [IssuesService.List, IssuesService.listIssues, IssuesService.ListByOrg,
       IssuesService.ListByRepo, IssuesService.Get, IssuesService.Create,
       IssuesService.Edit, IssuesService.RemoveMilestone, IssuesService.ListMilestones,
       IssuesService.GetMilestone, IssuesService.CreateMilestone,
       IssuesService.EditMilestone, Client.newRequest]
     split <;>
       first
         | exact Or.inl rfl
         | (split <;> first | exact Or.inl rfl | exact Or.inr rfl))

/-!
Concrete instances of the claim theorems, at the trivially succeeding and
the always-failing collaborator behaviours.
-/

/-- C1 at a concrete input: the one request sent carries the explicit-null
milestone body. -/
theorem removeMilestone_sends_explicit_null_milestone_witness :
    (IssuesService.RemoveMilestone okClient "o" "r" 3).sent =
      [{ method := "PATCH", url := "repos/o/r/issues/3",
         body := some (Jv.obj [("milestone", Jv.null)]), headers := [] }] :=
  (removeMilestone_sends_explicit_null_milestone okClient "o" "r" 3).2

/-- C3 at a concrete input: the request `Get` sends carries exactly the
preview Accept header. -/
theorem reactions_preview_header_witness :
    ({ method := "GET", url := "repos/o/r/issues/1", body := none,
       headers := [("Accept", mediaTypeReactionsPreview)] } : Request).headers =
      [("Accept", mediaTypeReactionsPreview)] :=
  (reactions_preview_header_exactly_on_issue_list_and_get okClient "o" "r" "org" 1 true
      none none none none none none).2.2.2.1 _ (List.Mem.head _)

/-- C4 at a concrete input. -/
theorem get_requests_issue_path_witness :
    (IssuesService.Get okClient "o" "r" 1).sent =
      [{ method := "GET", url := "repos/o/r/issues/1", body := none,
         headers := [("Accept", mediaTypeReactionsPreview)] }] :=
  get_requests_issue_path_via_get_with_preview_header okClient "o" "r" 1

/-- C5 at a concrete input: `List(true, nil)` requests exactly `issues`. -/
theorem list_selects_endpoint_witness :
    (IssuesService.List okClient true none).sent =
      [{ method := "GET", url := "issues", body := none,
         headers := [("Accept", mediaTypeReactionsPreview)] }] :=
  (list_selects_endpoint_from_flag okClient none).2.2.1

/-- C6 at a concrete input: the lock request carries the spam body. -/
theorem lock_put_body_witness :
    (IssuesService.Lock okClient "o" "r" 1 (some { LockReason := "spam" })).sent =
      [{ method := "PUT", url := "repos/o/r/issues/1/lock",
         body := some (Jv.obj [("lock_reason", Jv.str "spam")]), headers := [] }] :=
  (lock_put_body_matches_options okClient "o" "r" 1).2.1

/-- C7 at the concrete record holding only the two labels. -/
theorem labels_encode_witness :
    (encodeIssueListByRepoOptions { Labels := ["bug", "p1"] }).filter
      (fun p => p.1 == "labels") = [("labels", "bug,p1")] :=
  labels_encode_as_single_comma_joined_parameter {}

/-- C8 at a concrete input: on the always-failing collaborator `Get`
returns the construction error with nothing sent. -/
theorem construction_failure_witness :
    IssuesService.Get failClient "o" "r" 1 =
      { value := none, resp := none, err := some { msg := "bad request" }, sent := [] } :=
  (construction_failure_returns_error_without_network_call failClient
      { msg := "bad request" } "o" "r" "org" 1 true none none none none none none).2.2.2.1 rfl

/-- C10 at a concrete input: on the always-failing collaborator `Get`
surfaces no value. -/
theorem error_result_implies_nil_value_witness :
    (IssuesService.Get failClient "o" "r" 1).value = none :=
  (error_result_implies_nil_value failClient "o" "r" "org" 1 true
      none none none none none).2.2.2.1
    (fun hbad =>
      Option.noConfusion (show some ({ msg := "bad request" } : GoErr) = none from hbad))

end github
